import Mathlib

/-!
Verification of the mutation rule in pkg/mutation/mount_home_directory.go.

The Go code is shallowly embedded as pure Lean functions:

- Pointers that may be nil become Option values; writing through a nil
  pointer is modelled as the panicked outcome of a GoResult.
- The two external calls made by setUID (building the in-cluster client
  and fetching the uid-mapping ConfigMap) are modelled by an Env record
  holding the outcome each call would have; Mutate additionally reports
  whether setUID was invoked at all (storeAccessed) and which keys were
  looked up in the ConfigMap data (lookupKeys), so that absence of side
  effects is a provable statement.
- Go map indexing data[k] yields the zero value (the empty string) for a
  missing key, modelled by goMapGet.
- fmt.Sprintf and fmt.Errorf are modelled as string concatenation; the
  formatting of a nil error value is abstracted as the literal <nil>.
- strings.Split(s, sep) for the one-character separator used here is
  modelled by splitOnColon over the character list of s, and
  strings.HasPrefix by goHasPfx.
- strconv.ParseInt(s, 10, 64) is modelled by goParseInt64: optional sign,
  at least one decimal digit, result within the signed 64-bit range.
- pod.DeepCopy() is modelled by deepCopy, the identity on Pod values: in
  this pure embedding the copy is value-equal to the original and the
  original value is untouched by construction.
-/

namespace Webhook

/-- Security context of a Pod: the nullable RunAsUser plus an abstract
remainder standing for every other field, which this code never touches. -/
structure PodSecurityContext where
  runAsUser : Option Int
  scRest : String
deriving DecidableEq

/-- Pod spec: the nullable security context plus an abstract remainder. -/
structure PodSpec where
  securityContext : Option PodSecurityContext
  specRest : String
deriving DecidableEq

/-- A Pod: its spec plus an abstract remainder for metadata and the rest. -/
structure Pod where
  spec : PodSpec
  metaRest : String
deriving DecidableEq

/-- The only field of the AdmissionRequest this code reads is
request.UserInfo.Username. -/
structure AdmissionRequest where
  username : String
deriving DecidableEq

/-- The uid-mapping ConfigMap: its Data field, a string-to-string map. -/
structure ConfigMap where
  data : List (String × String)
deriving DecidableEq

/-- Outcomes of the external calls made during one invocation: the result
rest.InClusterConfig would give, the result kubernetes.NewForConfig would
give, and the result of fetching the ConfigMap from the API. -/
structure Env where
  inClusterConfig : Except String Unit
  newForConfig : Except String Unit
  configMapGet : Except String ConfigMap

/-- Result of a Go computation that may panic, return an error, or
succeed. -/
inductive GoResult (α : Type) where
  | panicked
  | errored (msg : String)
  | ok (val : α)
deriving DecidableEq

/-- Go map indexing: a missing key yields the zero value, the empty
string. -/
def goMapGet (m : List (String × String)) (k : String) : String :=
  match m.lookup k with
  | some v => v
  | none => ""

/-- Model of strings.HasPrefix over character lists. -/
def goHasPfx : List Char → List Char → Bool
  | _, [] => true
  | [], _ :: _ => false
  | c :: cs, p :: ps => if c = p then goHasPfx cs ps else false

/-- Model of strings.Split(s, colon) over the character list of s: the
colon-separated segments, empty segments included. -/
def splitOnColon : List Char → List (List Char)
  | [] => [[]]
  | c :: cs =>
    if c = ':' then [] :: splitOnColon cs
    else (c :: (splitOnColon cs).headI) :: (splitOnColon cs).tail

/-- The ServiceAccount username marker system:serviceaccount: used by
getServiceAccount. -/
def saIdent : List Char := "system:serviceaccount:".data

/-- getServiceAccount from the source: if the username carries the
ServiceAccount marker and splits on colons into exactly four segments,
return the fourth segment, else return the empty string. -/
def getServiceAccount (request : AdmissionRequest) : String :=
  let username := request.username
  if username ≠ "" ∧ goHasPfx username.data saIdent = true then
    let parts := splitOnColon username.data
    if parts.length = 4 then String.mk (parts.getD 3 [])
    else ""
  else ""

/-- pod.DeepCopy(): in this pure embedding the copy is the same value. -/
def deepCopy (p : Pod) : Pod := p

/-- initClient from the source: build the in-cluster config, then the
clientset, wrapping each failure in its message. -/
def initClient (env : Env) : Except String Unit :=
  match env.inClusterConfig with
  | .error e => .error ("Error getting in-cluster config: " ++ e ++ "\n")
  | .ok _ =>
    match env.newForConfig with
    | .error e => .error ("Error starting Kubernetes client from config: " ++ e ++ "\n")
    | .ok _ => .ok ()

/-- getConfigMap from the source: fetch the named ConfigMap, wrapping a
failure in its message. -/
def getConfigMap (env : Env) : Except String ConfigMap :=
  match env.configMapGet with
  | .error e => .error ("Error getting ConfigMap: " ++ e ++ "\n")
  | .ok cm => .ok cm

/-- Digit string to natural number, most significant digit first. -/
def digitsToNat (cs : List Char) : Nat :=
  cs.foldl (fun a c => a * 10 + (c.toNat - 48)) 0

/-- Model of strconv.ParseInt(s, 10, 64): optional leading sign, at least
one decimal digit, and the signed value must fit in 64 bits. -/
def goParseInt64 (s : String) : Except String Int :=
  let sd : Bool × List Char :=
    match s.data with
    | '-' :: r => (true, r)
    | '+' :: r => (false, r)
    | r => (false, r)
  let neg := sd.1
  let ds := sd.2
  if ds = [] ∨ ds.any (fun c => !c.isDigit) then
    .error ("strconv.ParseInt: parsing \"" ++ s ++ "\": invalid syntax")
  else
    let v : Int := if neg then -(digitsToNat ds : Int) else (digitsToNat ds : Int)
    if v < -(2 ^ 63) ∨ 2 ^ 63 - 1 < v then
      .error ("strconv.ParseInt: parsing \"" ++ s ++ "\": value out of range")
    else .ok v

/-- The message produced at the unmapped-principal branch of setUID: the
source formats the nil err value where the ServiceAccount name was surely
meant, so the message shows <nil>. -/
def unmappedMsg : String := "ServiceAccount <nil>\n has no UID associated with it"

/-- setUID from the source. Returns the Go outcome together with the list
of keys looked up in the ConfigMap data, in order. The source assigns
through the existing pointer without ever allocating it, so a nil existing
context panics once a well-formed uid has been fetched and parsed. -/
def setUID (env : Env) (existing : Option PodSecurityContext) (serviceAccount : String) :
    GoResult PodSecurityContext × List String :=
  match initClient env with
  | .error e => (.errored ("Failed initializing Kubernetes client: " ++ e ++ "\n"), [])
  | .ok _ =>
    match getConfigMap env with
    | .error e => (.errored ("Failed setting UID: " ++ e ++ "\n"), [])
    | .ok configMap =>
      let data := configMap.data
      let uid := goMapGet data serviceAccount
      if uid = "" then
        (.errored unmappedMsg, [serviceAccount])
      else
        match goParseInt64 (goMapGet data serviceAccount) with
        | .error e => (.errored ("Failed to convert UID to int64: " ++ e), [serviceAccount, serviceAccount])
        | .ok uid64 =>
          match existing with
          | none => (.panicked, [serviceAccount, serviceAccount])
          | some ctx => (.ok { ctx with runAsUser := some uid64 }, [serviceAccount, serviceAccount])

/-- The guard of Mutate: securityContext == nil or its RunAsUser == nil. -/
def runAsUserUnset (sc : Option PodSecurityContext) : Bool :=
  match sc with
  | none => true
  | some c => c.runAsUser.isNone

/-- Outcome of Mutate: a panic, an error with a nil Pod, or a returned
Pod with a nil error. -/
inductive MutateResult where
  | panicked
  | errored (msg : String)
  | ok (pod : Pod)
deriving DecidableEq

/-- Observable outcome of one Mutate call: the returned value, whether
setUID ran at all (client construction and ConfigMap fetch happen only
there), and the ConfigMap data keys that were looked up. -/
structure MutateOut where
  result : MutateResult
  storeAccessed : Bool
  lookupKeys : List String
deriving DecidableEq

/-- Mutate from the source: deep-copy the Pod, read the security context
of the original, extract the ServiceAccount; when RunAsUser is absent and
a ServiceAccount was extracted, run setUID on the copy and either return
the error wrapped, or return the copy with the new security context;
otherwise return the untouched copy. -/
def Mutate (env : Env) (pod : Pod) (a : AdmissionRequest) : MutateOut :=
  let mpod := deepCopy pod
  let securityContext := pod.spec.securityContext
  let serviceAccount := getServiceAccount a
  if runAsUserUnset securityContext then
    if serviceAccount ≠ "" then
      match setUID env mpod.spec.securityContext serviceAccount with
      | (.panicked, ks) => { result := .panicked, storeAccessed := true, lookupKeys := ks }
      | (.errored e, ks) =>
        { result := .errored ("Failed to set RunAsUser: " ++ e ++ "\n"), storeAccessed := true, lookupKeys := ks }
      | (.ok sc, ks) =>
        { result := .ok { mpod with spec := { mpod.spec with securityContext := some sc } },
          storeAccessed := true, lookupKeys := ks }
    else { result := .ok mpod, storeAccessed := false, lookupKeys := [] }
  else { result := .ok mpod, storeAccessed := false, lookupKeys := [] }

/-- All keys in a lookup trace equal the given one. -/
def allEq (l : List String) (s : String) : Bool :=
  l.all (fun k => k == s)

/-- An Env in which every external call succeeds and the ConfigMap is cm. -/
def healthyEnv (cm : ConfigMap) : Env :=
  { inClusterConfig := .ok (), newForConfig := .ok (), configMapGet := .ok cm }

/-- The Pod p carries a security context with a non-null RunAsUser. -/
def hasUID (p : Pod) : Prop :=
  ∃ ctx u, p.spec.securityContext = some ctx ∧ ctx.runAsUser = some u

/-- Every invocation of Mutate on p returns p itself with no store access. -/
def noopForAll (p : Pod) : Prop :=
  ∀ (env2 : Env) (a2 : AdmissionRequest),
    Mutate env2 p a2 = { result := .ok p, storeAccessed := false, lookupKeys := [] }

/-- The Pod p is exactly pod with the RunAsUser of its security context
filled in with some value, everything else untouched: no halfway update. -/
def fullyApplied (pod p : Pod) : Prop :=
  ∃ ctx u, pod.spec.securityContext = some ctx ∧ ctx.runAsUser = none ∧
    p = { pod with spec := { pod.spec with securityContext := some { ctx with runAsUser := some u } } }

/- Helper lemmas about the embedded primitives. -/

theorem data_append (s t : String) : (s ++ t).data = s.data ++ t.data := rfl

theorem mk_data (s : String) : String.mk s.data = s := rfl

theorem splitOnColon_ne_nil (cs : List Char) : splitOnColon cs ≠ [] := by
  cases cs with
  | nil => simp [splitOnColon]
  | cons c cs =>
    simp only [splitOnColon]
    split <;> simp

theorem splitOnColon_length (cs : List Char) :
    (splitOnColon cs).length = cs.count ':' + 1 := by
  induction cs with
  | nil => simp [splitOnColon]
  | cons c cs ih =>
    by_cases h : c = ':'
    · subst h
      simp [splitOnColon, List.count_cons, ih]
    · have hne := splitOnColon_ne_nil cs
      cases hr : splitOnColon cs with
      | nil => exact absurd hr hne
      | cons s rest =>
        rw [hr] at ih
        simp only [List.length_cons] at ih
        simp [splitOnColon, h, hr, List.count_cons, ih]

theorem splitOnColon_seg (a r : List Char) (h : ':' ∉ a) :
    splitOnColon (a ++ ':' :: r) = a :: splitOnColon r := by
  induction a with
  | nil => simp [splitOnColon]
  | cons c a ih =>
    have hc : c ≠ ':' := fun hcc => h (hcc ▸ List.mem_cons_self c a)
    have h2 : ':' ∉ a := fun hm => h (List.mem_cons_of_mem c hm)
    simp [splitOnColon, hc, ih h2]

theorem splitOnColon_no_colon (a : List Char) (h : ':' ∉ a) :
    splitOnColon a = [a] := by
  induction a with
  | nil => rfl
  | cons c a ih =>
    have hc : c ≠ ':' := fun hcc => h (hcc ▸ List.mem_cons_self c a)
    have h2 : ':' ∉ a := fun hm => h (List.mem_cons_of_mem c hm)
    simp [splitOnColon, hc, ih h2]

theorem goHasPfx_append (p x : List Char) : goHasPfx (p ++ x) p = true := by
  induction p with
  | nil => cases x <;> simp [goHasPfx]
  | cons c p ih => simp [goHasPfx, ih]

theorem initClient_healthy (env : Env) (hi : env.inClusterConfig = .ok ())
    (hn : env.newForConfig = .ok ()) : initClient env = .ok () := by
  simp [initClient, hi, hn]

theorem getConfigMap_healthy (env : Env) (cm : ConfigMap)
    (hc : env.configMapGet = .ok cm) : getConfigMap env = .ok cm := by
  simp [getConfigMap, hc]

theorem Mutate_noop_of_sa_empty (env : Env) (pod : Pod) (a : AdmissionRequest)
    (hs : getServiceAccount a = "") :
    Mutate env pod a = { result := .ok pod, storeAccessed := false, lookupKeys := [] } := by
  simp [Mutate, hs, deepCopy]

theorem Mutate_noop_of_set (env : Env) (pod : Pod) (a : AdmissionRequest)
    (hb : runAsUserUnset pod.spec.securityContext = false) :
    Mutate env pod a = { result := .ok pod, storeAccessed := false, lookupKeys := [] } := by
  simp [Mutate, hb, deepCopy]

theorem Mutate_store_panic (env : Env) (pod : Pod) (a : AdmissionRequest) (ks : List String)
    (hb : runAsUserUnset pod.spec.securityContext = true)
    (hs : getServiceAccount a ≠ "")
    (hsu : setUID env pod.spec.securityContext (getServiceAccount a) = (.panicked, ks)) :
    Mutate env pod a = { result := .panicked, storeAccessed := true, lookupKeys := ks } := by
  simp [Mutate, hb, hs, deepCopy, hsu]

theorem Mutate_store_error (env : Env) (pod : Pod) (a : AdmissionRequest)
    (msg : String) (ks : List String)
    (hb : runAsUserUnset pod.spec.securityContext = true)
    (hs : getServiceAccount a ≠ "")
    (hsu : setUID env pod.spec.securityContext (getServiceAccount a) = (.errored msg, ks)) :
    Mutate env pod a =
      { result := .errored ("Failed to set RunAsUser: " ++ msg ++ "\n"),
        storeAccessed := true, lookupKeys := ks } := by
  simp [Mutate, hb, hs, deepCopy, hsu]

theorem Mutate_store_ok (env : Env) (pod : Pod) (a : AdmissionRequest)
    (sc : PodSecurityContext) (ks : List String)
    (hb : runAsUserUnset pod.spec.securityContext = true)
    (hs : getServiceAccount a ≠ "")
    (hsu : setUID env pod.spec.securityContext (getServiceAccount a) = (.ok sc, ks)) :
    Mutate env pod a =
      { result := .ok { pod with spec := { pod.spec with securityContext := some sc } },
        storeAccessed := true, lookupKeys := ks } := by
  simp [Mutate, hb, hs, deepCopy, hsu]

theorem setUID_ok_shape (env : Env) (e : Option PodSecurityContext) (sa : String)
    (sc : PodSecurityContext) (ks : List String)
    (h : setUID env e sa = (.ok sc, ks)) :
    ∃ ctx u, e = some ctx ∧ sc = { ctx with runAsUser := some u } ∧ ks = [sa, sa] := by
  unfold setUID at h
  cases hic : initClient env with
  | error e1 => simp [hic] at h
  | ok u =>
    cases hcm : getConfigMap env with
    | error e2 => simp [hic, hcm] at h
    | ok cm =>
      simp only [hic, hcm] at h
      by_cases hu : goMapGet cm.data sa = ""
      · simp [hu] at h
      · cases hp : goParseInt64 (goMapGet cm.data sa) with
        | error e3 => simp [hu, hp] at h
        | ok v =>
          cases e with
          | none => simp [hu, hp] at h
          | some ctx =>
            simp [hu, hp] at h
            exact ⟨ctx, v, rfl, h.1.symm, h.2.symm⟩

theorem setUID_healthy_unmapped (env : Env) (cm : ConfigMap)
    (e : Option PodSecurityContext) (sa : String)
    (hi : env.inClusterConfig = .ok ()) (hn : env.newForConfig = .ok ())
    (hc : env.configMapGet = .ok cm)
    (hmiss : goMapGet cm.data sa = "") :
    setUID env e sa = (.errored unmappedMsg, [sa]) := by
  simp [setUID, initClient_healthy env hi hn, getConfigMap_healthy env cm hc, hmiss]

theorem setUID_healthy_parse_error (env : Env) (cm : ConfigMap)
    (e : Option PodSecurityContext) (sa v msg : String)
    (hi : env.inClusterConfig = .ok ()) (hn : env.newForConfig = .ok ())
    (hc : env.configMapGet = .ok cm)
    (hv : goMapGet cm.data sa = v) (hvne : v ≠ "")
    (hp : goParseInt64 v = .error msg) :
    setUID env e sa = (.errored ("Failed to convert UID to int64: " ++ msg), [sa, sa]) := by
  simp [setUID, initClient_healthy env hi hn, getConfigMap_healthy env cm hc, hv, hvne, hp]

theorem setUID_healthy_keys (env : Env) (cm : ConfigMap)
    (e : Option PodSecurityContext) (sa : String)
    (hi : env.inClusterConfig = .ok ()) (hn : env.newForConfig = .ok ())
    (hc : env.configMapGet = .ok cm) :
    (setUID env e sa).2 = [sa] ∨ (setUID env e sa).2 = [sa, sa] := by
  have h1 := initClient_healthy env hi hn
  have h2 := getConfigMap_healthy env cm hc
  by_cases hu : goMapGet cm.data sa = ""
  · left
    simp [setUID, h1, h2, hu]
  · right
    cases hp : goParseInt64 (goMapGet cm.data sa) with
    | error e3 => simp [setUID, h1, h2, hu, hp]
    | ok v =>
      cases e with
      | none => simp [setUID, h1, h2, hu, hp]
      | some ctx => simp [setUID, h1, h2, hu, hp]

theorem username_data_decomp (a : AdmissionRequest) (ns name : String)
    (hu : a.username = "system:serviceaccount:" ++ ns ++ ":" ++ name) :
    a.username.data = saIdent ++ (ns.data ++ ':' :: name.data) := by
  rw [hu]
  rw [data_append, data_append, data_append]
  rw [List.append_assoc, List.append_assoc]
  rfl

theorem extract_split (a : AdmissionRequest) (ns name : String)
    (hu : a.username = "system:serviceaccount:" ++ ns ++ ":" ++ name)
    (h4 : (splitOnColon a.username.data).length = 4) :
    splitOnColon a.username.data =
      ["system".data, "serviceaccount".data, ns.data, name.data] := by
  have hdata := username_data_decomp a ns name hu
  have hlen := splitOnColon_length a.username.data
  rw [h4] at hlen
  have hcount : a.username.data.count ':' = 3 := by omega
  rw [hdata, List.count_append, List.count_append, List.count_cons_self] at hcount
  rw [show saIdent.count ':' = 2 from by decide] at hcount
  have hns : ':' ∉ ns.data := List.count_eq_zero.mp (by omega)
  have hnm : ':' ∉ name.data := List.count_eq_zero.mp (by omega)
  rw [hdata]
  rw [show saIdent ++ (ns.data ++ ':' :: name.data) =
        "system".data ++ ':' :: ("serviceaccount".data ++ ':' ::
          (ns.data ++ ':' :: name.data)) from rfl]
  rw [splitOnColon_seg _ _ (by decide), splitOnColon_seg _ _ (by decide),
    splitOnColon_seg _ _ hns, splitOnColon_no_colon _ hnm]

theorem extract_name (a : AdmissionRequest) (ns name : String)
    (hu : a.username = "system:serviceaccount:" ++ ns ++ ":" ++ name)
    (h4 : (splitOnColon a.username.data).length = 4) :
    getServiceAccount a = name := by
  have hdata := username_data_decomp a ns name hu
  have hsplit := extract_split a ns name hu h4
  have hpfx : goHasPfx a.username.data saIdent = true := by
    rw [hdata]
    exact goHasPfx_append _ _
  have hne : a.username ≠ "" := by
    intro h0
    have h0e : saIdent ++ (ns.data ++ ':' :: name.data) = ([] : List Char) := by
      rw [← hdata, h0]
    exact absurd (List.append_eq_nil.mp h0e).1 (by decide)
  simp [getServiceAccount, hpfx, hne, hsplit, mk_data]

/-- Claim C1: the spec requires setUID to create the security context
struct when it is absent and to finish without a nil dereference. The
source instead assigns through the existing pointer unconditionally, so on
a Pod with no security context, a request from a ServiceAccount whose
mapping is the well-formed integer 1001, and a reachable store, the call
panics after the lookup and parse have already succeeded. -/
theorem mutate_nil_securityContext_panics :
    Mutate (healthyEnv ⟨[("build-bot", "1001")]⟩) ⟨⟨none, "ps1"⟩, "pm1"⟩
        ⟨"system:serviceaccount:default:build-bot"⟩ =
      { result := .panicked, storeAccessed := true,
        lookupKeys := ["build-bot", "build-bot"] } := rfl

/-- Claim C2: with the store mapping build-bot to 1001 and a request from
ServiceAccount build-bot, a Pod whose security context exists with no
RunAsUser does come back with RunAsUser 1001; but a Pod with no security
context at all, which the claim also covers, makes the code panic instead
of returning the mutated Pod. -/
theorem mutate_build_bot_eval :
    Mutate (healthyEnv ⟨[("build-bot", "1001")]⟩) ⟨⟨some ⟨none, "sc2"⟩, "ps2"⟩, "pm2"⟩
        ⟨"system:serviceaccount:ci:build-bot"⟩ =
      { result := .ok ⟨⟨some ⟨some 1001, "sc2"⟩, "ps2"⟩, "pm2"⟩,
        storeAccessed := true, lookupKeys := ["build-bot", "build-bot"] } ∧
    Mutate (healthyEnv ⟨[("build-bot", "1001")]⟩) ⟨⟨none, "ps2"⟩, "pm2"⟩
        ⟨"system:serviceaccount:ci:build-bot"⟩ =
      { result := .panicked, storeAccessed := true,
        lookupKeys := ["build-bot", "build-bot"] } :=
  ⟨rfl, rfl⟩

/-- Claim C3, counterexample: the username splits into exactly four
segments with an empty fourth segment, so the claim as stated promises a
store lookup with the empty key; the code instead treats the request as
not coming from a ServiceAccount and never touches the store, even though
the store maps the empty key. -/
theorem extract_empty_name_no_lookup :
    getServiceAccount ⟨"system:serviceaccount:dev:"⟩ = "" ∧
    Mutate (healthyEnv ⟨[("", "1001")]⟩) ⟨⟨none, "ps3"⟩, "pm3"⟩
        ⟨"system:serviceaccount:dev:"⟩ =
      { result := .ok ⟨⟨none, "ps3"⟩, "pm3"⟩, storeAccessed := false,
        lookupKeys := [] } :=
  ⟨rfl, rfl⟩

/-- Claim C3, amended: for a username of ServiceAccount form splitting
into exactly four colon-separated segments whose fourth segment is
nonempty, on a Pod with no RunAsUser and with the store reachable, the
extracted name is exactly the fourth segment and every key looked up in
the mapping data is exactly that name. -/
theorem extract_and_lookup_key (env : Env) (cm : ConfigMap) (pod : Pod)
    (a : AdmissionRequest) (ns name : String)
    (hu : a.username = "system:serviceaccount:" ++ ns ++ ":" ++ name)
    (h4 : (splitOnColon a.username.data).length = 4)
    (hname : name ≠ "")
    (hb : runAsUserUnset pod.spec.securityContext = true)
    (hi : env.inClusterConfig = .ok ()) (hn : env.newForConfig = .ok ())
    (hc : env.configMapGet = .ok cm) :
    getServiceAccount a = name ∧
    (Mutate env pod a).lookupKeys.isEmpty = false ∧
    allEq (Mutate env pod a).lookupKeys name = true := by
  have hx := extract_name a ns name hu h4
  have hs : getServiceAccount a ≠ "" := by rw [hx]; exact hname
  have hkeys := setUID_healthy_keys env cm pod.spec.securityContext (getServiceAccount a) hi hn hc
  have hlk : (Mutate env pod a).lookupKeys =
      (setUID env pod.spec.securityContext (getServiceAccount a)).2 := by
    rcases hsu : setUID env pod.spec.securityContext (getServiceAccount a) with ⟨gr, ks⟩
    cases gr with
    | panicked => rw [Mutate_store_panic env pod a ks hb hs hsu]
    | errored m => rw [Mutate_store_error env pod a m ks hb hs hsu]
    | ok sc => rw [Mutate_store_ok env pod a sc ks hb hs hsu]
  refine ⟨hx, ?_, ?_⟩
  · rw [hlk]
    rcases hkeys with hk | hk <;> rw [hk] <;> rfl
  · rw [hlk]
    rcases hkeys with hk | hk <;> rw [hk, hx] <;> simp [allEq]

/-- Claim C3, witness instance of the amended statement. -/
theorem extract_and_lookup_key_w :
    getServiceAccount ⟨"system:serviceaccount:dev:build-bot"⟩ = "build-bot" ∧
    (Mutate (healthyEnv ⟨[("build-bot", "1001")]⟩) ⟨⟨some ⟨none, "sc3"⟩, "ps3b"⟩, "pm3b"⟩
        ⟨"system:serviceaccount:dev:build-bot"⟩).lookupKeys.isEmpty = false ∧
    allEq (Mutate (healthyEnv ⟨[("build-bot", "1001")]⟩) ⟨⟨some ⟨none, "sc3"⟩, "ps3b"⟩, "pm3b"⟩
        ⟨"system:serviceaccount:dev:build-bot"⟩).lookupKeys "build-bot" = true :=
  extract_and_lookup_key _ _ _ _ "dev" "build-bot" rfl (by decide) (by decide) rfl rfl rfl rfl

/-- Claim C4: a Pod that already declares a security context with a
non-null RunAsUser is returned unchanged, with setUID never invoked and no
key ever looked up, whatever the request and the environment. -/
theorem mutate_runAsUser_set_noop (env : Env) (pod : Pod) (a : AdmissionRequest)
    (ctx : PodSecurityContext) (u : Int)
    (h1 : pod.spec.securityContext = some ctx) (h2 : ctx.runAsUser = some u) :
    Mutate env pod a = { result := .ok pod, storeAccessed := false, lookupKeys := [] } :=
  Mutate_noop_of_set env pod a (by simp [runAsUserUnset, h1, h2])

/-- Claim C4, witness instance. -/
theorem mutate_runAsUser_set_noop_w :
    Mutate (healthyEnv ⟨[("build-bot", "1001")]⟩) ⟨⟨some ⟨some 500, "sc4"⟩, "ps4"⟩, "pm4"⟩
        ⟨"system:serviceaccount:default:build-bot"⟩ =
      { result := .ok ⟨⟨some ⟨some 500, "sc4"⟩, "ps4"⟩, "pm4"⟩, storeAccessed := false,
        lookupKeys := [] } :=
  mutate_runAsUser_set_noop _ _ _ ⟨some 500, "sc4"⟩ 500 rfl rfl

/-- Claim C5: a username without the ServiceAccount marker, or with the
marker but not exactly four colon-separated segments, extracts as absent
and the Pod is returned unchanged with no store access. -/
theorem mutate_malformed_username_noop (env : Env) (pod : Pod) (a : AdmissionRequest)
    (h : goHasPfx a.username.data saIdent = false ∨
      (splitOnColon a.username.data).length ≠ 4) :
    getServiceAccount a = "" ∧
    Mutate env pod a = { result := .ok pod, storeAccessed := false, lookupKeys := [] } := by
  have hs : getServiceAccount a = "" := by
    rcases h with h | h
    · simp [getServiceAccount, h]
    · by_cases hp : a.username ≠ "" ∧ goHasPfx a.username.data saIdent = true
      · simp [getServiceAccount, hp, h]
      · simp [getServiceAccount, hp]
  exact ⟨hs, Mutate_noop_of_sa_empty env pod a hs⟩

/-- Claim C5, witness instance on a username without the marker. -/
theorem mutate_malformed_username_noop_w :
    getServiceAccount ⟨"kubernetes-admin"⟩ = "" ∧
    Mutate (healthyEnv ⟨[("kubernetes-admin", "1001")]⟩) ⟨⟨none, "ps5"⟩, "pm5"⟩
        ⟨"kubernetes-admin"⟩ =
      { result := .ok ⟨⟨none, "ps5"⟩, "pm5"⟩, storeAccessed := false, lookupKeys := [] } :=
  mutate_malformed_username_noop _ _ _ (Or.inl (by decide))

/-- Claim C6: when the extracted ServiceAccount has no entry in the
mapping data, or an empty one, resolution fails with the unmapped message
and Mutate returns the error with no Pod. -/
theorem mutate_unmapped_principal_fails (env : Env) (cm : ConfigMap) (pod : Pod)
    (a : AdmissionRequest) (sa : String)
    (hi : env.inClusterConfig = .ok ()) (hn : env.newForConfig = .ok ())
    (hc : env.configMapGet = .ok cm)
    (hsa : getServiceAccount a = sa) (hne : sa ≠ "")
    (hb : runAsUserUnset pod.spec.securityContext = true)
    (hmiss : goMapGet cm.data sa = "") :
    Mutate env pod a =
      { result := .errored ("Failed to set RunAsUser: " ++ unmappedMsg ++ "\n"),
        storeAccessed := true, lookupKeys := [sa] } := by
  have hs : getServiceAccount a ≠ "" := by rw [hsa]; exact hne
  have hsu : setUID env pod.spec.securityContext (getServiceAccount a) =
      (.errored unmappedMsg, [sa]) := by
    rw [hsa]
    exact setUID_healthy_unmapped env cm pod.spec.securityContext sa hi hn hc hmiss
  exact Mutate_store_error env pod a unmappedMsg [sa] hb hs hsu

/-- Claim C6, witness instance for ServiceAccount ghost. -/
theorem mutate_unmapped_principal_fails_w :
    Mutate (healthyEnv ⟨[("build-bot", "1001")]⟩) ⟨⟨some ⟨none, "sc6"⟩, "ps6"⟩, "pm6"⟩
        ⟨"system:serviceaccount:default:ghost"⟩ =
      { result := .errored ("Failed to set RunAsUser: " ++ unmappedMsg ++ "\n"),
        storeAccessed := true, lookupKeys := ["ghost"] } :=
  mutate_unmapped_principal_fails _ _ _ _ "ghost" rfl rfl rfl rfl (by decide) rfl rfl

/-- Claim C7: when the mapped value is nonempty but not a well-formed
base-10 signed 64-bit integer, resolution fails with the conversion
message and Mutate returns the error with no Pod. -/
theorem mutate_malformed_uid_fails (env : Env) (cm : ConfigMap) (pod : Pod)
    (a : AdmissionRequest) (sa v msg : String)
    (hi : env.inClusterConfig = .ok ()) (hn : env.newForConfig = .ok ())
    (hc : env.configMapGet = .ok cm)
    (hsa : getServiceAccount a = sa) (hne : sa ≠ "")
    (hb : runAsUserUnset pod.spec.securityContext = true)
    (hv : goMapGet cm.data sa = v) (hvne : v ≠ "")
    (hp : goParseInt64 v = .error msg) :
    Mutate env pod a =
      { result := .errored ("Failed to set RunAsUser: " ++
          ("Failed to convert UID to int64: " ++ msg) ++ "\n"),
        storeAccessed := true, lookupKeys := [sa, sa] } := by
  have hs : getServiceAccount a ≠ "" := by rw [hsa]; exact hne
  have hsu : setUID env pod.spec.securityContext (getServiceAccount a) =
      (.errored ("Failed to convert UID to int64: " ++ msg), [sa, sa]) := by
    rw [hsa]
    exact setUID_healthy_parse_error env cm pod.spec.securityContext sa v msg hi hn hc hv hvne hp
  exact Mutate_store_error env pod a _ _ hb hs hsu

/-- Claim C7, witness instance for the value not-a-number. -/
theorem mutate_malformed_uid_fails_w :
    Mutate (healthyEnv ⟨[("build-bot", "not-a-number")]⟩) ⟨⟨some ⟨none, "sc7"⟩, "ps7"⟩, "pm7"⟩
        ⟨"system:serviceaccount:default:build-bot"⟩ =
      { result := .errored ("Failed to set RunAsUser: " ++
          ("Failed to convert UID to int64: " ++
            "strconv.ParseInt: parsing \"not-a-number\": invalid syntax") ++ "\n"),
        storeAccessed := true, lookupKeys := ["build-bot", "build-bot"] } :=
  mutate_malformed_uid_fails _ _ _ _ "build-bot" "not-a-number"
    "strconv.ParseInt: parsing \"not-a-number\": invalid syntax"
    rfl rfl rfl rfl (by decide) rfl rfl (by decide) rfl

/-- Claim C8: whenever Mutate returns a Pod, that Pod is either the input
value unchanged or the input with the RunAsUser of its existing security
context filled in, everything else identical; error outcomes carry no Pod
at all, and the input value is untouched throughout. -/
theorem mutate_no_halfway_mutation (env : Env) (pod : Pod) (a : AdmissionRequest) (p : Pod)
    (h : (Mutate env pod a).result = .ok p) :
    p = pod ∨ fullyApplied pod p := by
  by_cases hb : runAsUserUnset pod.spec.securityContext = true
  · by_cases hs : getServiceAccount a = ""
    · left
      rw [Mutate_noop_of_sa_empty env pod a hs] at h
      simp at h
      exact h.symm
    · rcases hsu : setUID env pod.spec.securityContext (getServiceAccount a) with ⟨gr, ks⟩
      cases gr with
      | panicked => rw [Mutate_store_panic env pod a ks hb hs hsu] at h; simp at h
      | errored m => rw [Mutate_store_error env pod a m ks hb hs hsu] at h; simp at h
      | ok sc =>
        rw [Mutate_store_ok env pod a sc ks hb hs hsu] at h
        simp at h
        obtain ⟨ctx, u, hctx, hsc, hks⟩ := setUID_ok_shape env pod.spec.securityContext _ sc ks hsu
        right
        refine ⟨ctx, u, hctx, ?_, ?_⟩
        · rw [hctx] at hb
          simpa [runAsUserUnset, Option.isNone_iff_eq_none] using hb
        · rw [← h, hsc]
  · left
    rw [Mutate_noop_of_set env pod a (by simpa using hb)] at h
    simp at h
    exact h.symm

/-- Claim C8, witness instance on a no-op run. -/
theorem mutate_no_halfway_mutation_w :
    (⟨⟨none, "ps8"⟩, "pm8"⟩ : Pod) = ⟨⟨none, "ps8"⟩, "pm8"⟩ ∨
    fullyApplied ⟨⟨none, "ps8"⟩, "pm8"⟩ ⟨⟨none, "ps8"⟩, "pm8"⟩ :=
  mutate_no_halfway_mutation (healthyEnv ⟨[]⟩) ⟨⟨none, "ps8"⟩, "pm8"⟩ ⟨"u8"⟩
    ⟨⟨none, "ps8"⟩, "pm8"⟩ rfl

/-- Claim C9: a Pod returned by a run of Mutate that actually consulted
the store has RunAsUser set, and every later application of Mutate to it,
under any environment and any request, returns it unchanged with no store
access. -/
theorem mutate_idempotent_after_success (env : Env) (pod : Pod) (a : AdmissionRequest) (p : Pod)
    (hok : (Mutate env pod a).result = .ok p)
    (hacc : (Mutate env pod a).storeAccessed = true) :
    hasUID p ∧ noopForAll p := by
  by_cases hb : runAsUserUnset pod.spec.securityContext = true
  · by_cases hs : getServiceAccount a = ""
    · rw [Mutate_noop_of_sa_empty env pod a hs] at hacc
      simp at hacc
    · rcases hsu : setUID env pod.spec.securityContext (getServiceAccount a) with ⟨gr, ks⟩
      cases gr with
      | panicked => rw [Mutate_store_panic env pod a ks hb hs hsu] at hok; simp at hok
      | errored m => rw [Mutate_store_error env pod a m ks hb hs hsu] at hok; simp at hok
      | ok sc =>
        rw [Mutate_store_ok env pod a sc ks hb hs hsu] at hok
        simp at hok
        obtain ⟨ctx, u, hctx, hsc, hks⟩ := setUID_ok_shape env pod.spec.securityContext _ sc ks hsu
        have hp : p.spec.securityContext = some sc := by rw [← hok]
        refine ⟨⟨sc, u, hp, by rw [hsc]⟩, ?_⟩
        intro env2 a2
        apply Mutate_noop_of_set
        rw [hp, hsc]
        simp [runAsUserUnset]
  · rw [Mutate_noop_of_set env pod a (by simpa using hb)] at hacc
    simp at hacc

/-- Claim C9, witness instance after a successful mutation. -/
theorem mutate_idempotent_after_success_w :
    hasUID ⟨⟨some ⟨some 1001, "sc9"⟩, "ps9"⟩, "pm9"⟩ ∧
    noopForAll ⟨⟨some ⟨some 1001, "sc9"⟩, "ps9"⟩, "pm9"⟩ :=
  mutate_idempotent_after_success (healthyEnv ⟨[("build-bot", "1001")]⟩)
    ⟨⟨some ⟨none, "sc9"⟩, "ps9"⟩, "pm9"⟩ ⟨"system:serviceaccount:default:build-bot"⟩
    ⟨⟨some ⟨some 1001, "sc9"⟩, "ps9"⟩, "pm9"⟩ rfl rfl

/-- Claim C10: Mutate yields an error only when a ServiceAccount name was
extracted and the Pod had no RunAsUser; in every other case it returns the
unchanged Pod with no error and no store access. -/
theorem mutate_error_only_on_resolution_path (env : Env) (pod : Pod) (a : AdmissionRequest) :
    (∀ msg, (Mutate env pod a).result = .errored msg →
      getServiceAccount a ≠ "" ∧ runAsUserUnset pod.spec.securityContext = true) ∧
    ((getServiceAccount a = "" ∨ runAsUserUnset pod.spec.securityContext = false) →
      Mutate env pod a = { result := .ok pod, storeAccessed := false, lookupKeys := [] }) := by
  constructor
  · intro msg hmsg
    by_cases hb : runAsUserUnset pod.spec.securityContext = true
    · by_cases hs : getServiceAccount a = ""
      · rw [Mutate_noop_of_sa_empty env pod a hs] at hmsg
        simp at hmsg
      · exact ⟨hs, hb⟩
    · rw [Mutate_noop_of_set env pod a (by simpa using hb)] at hmsg
      simp at hmsg
  · rintro (hs | hb)
    · exact Mutate_noop_of_sa_empty env pod a hs
    · exact Mutate_noop_of_set env pod a hb

/-- Claim C10, witness instance on a Pod whose RunAsUser is already set. -/
theorem mutate_error_only_on_resolution_path_w :
    Mutate (healthyEnv ⟨[]⟩) ⟨⟨some ⟨some 7, "scA"⟩, "psA"⟩, "pmA"⟩
        ⟨"system:serviceaccount:default:build-bot"⟩ =
      { result := .ok ⟨⟨some ⟨some 7, "scA"⟩, "psA"⟩, "pmA"⟩, storeAccessed := false,
        lookupKeys := [] } :=
  (mutate_error_only_on_resolution_path _ _ _).2 (Or.inr rfl)

end Webhook
